import Mathlib

/-!
Verification development for the PLATE-VS client and bulk downloader
(`platevs_client.py`, `download_all_data.py`).

The program is modelled by a shallow embedding: the network is a
deterministic oracle mapping each HTTP request the program can issue to
its outcome (a final response after redirects, or a transport error),
the local filesystem is an association list from paths to byte
contents, and each operation additionally emits an event trace (HTTP
requests, rate-limit sleeps, warning prints, the abort print and the
final summary print).
-/

namespace PlateVS

/-- Byte string (file contents / HTTP body). -/
abbrev Bytes := List Nat

/-- The HTTP requests issued by the modelled code paths: the two probes
of `check_service_status` (GET of the base URL and of `/api/health`)
and the two parameterized downloads
(`/api/similarity-matrix/download-uniprot` with `threshold` and
`qcov_level` params; `/api/similarity-matrix/download-sdf` with a
`threshold` param, redirects followed). -/
inductive Request where
  | mainPage : Request
  | apiHealth : Request
  | matrixCsv (threshold : ℚ) (qcov_level : ℤ) : Request
  | sdfArchive (threshold : ℚ) : Request
deriving DecidableEq

/-- Outcome of one HTTP exchange as seen by the client code: either the
final response (status code and body, after the library transparently
followed any redirects), or a transport-level failure such as a
connection error or timeout (`requests.exceptions.RequestException`
raised before a response is available). -/
inductive HttpResult where
  | response (status : Nat) (content : Bytes)
  | transportError
deriving DecidableEq

/-- The network, as a deterministic oracle from request to outcome. -/
abbrev Oracle := Request → HttpResult

/-- `status_code == 200` check of `check_service_status`, with the
`except requests.exceptions.RequestException` branch giving `False`. -/
def statusOf : HttpResult → Bool
  | .response code _ => code == 200
  | .transportError => false

/-- Modelled from the spec: the failure signal of the external Remote
Fetch Primitive (`response.raise_for_status()` of the HTTP library,
which is not part of this repository). Per the spec it "must raise a
uniform failure signal for non-2xx status or transport errors"; this
predicate holds exactly when the final status is not 2xx. -/
def fetchRaises (status : Nat) : Bool := decide ¬(200 ≤ status ∧ status < 300)

/-- Local filesystem: association list from path to contents, most
recent write first. -/
abbrev FS := List (String × Bytes)

/-- Contents at a path, if any file was written there. -/
def FS.read (fs : FS) (p : String) : Option Bytes :=
  (fs.find? fun e => e.1 == p).map fun e => e.2

/-- `open(filepath, 'wb')` followed by `f.write(content)`: replaces
whatever was at the path before. -/
def FS.write (fs : FS) (p : String) (c : Bytes) : FS :=
  (p, c) :: fs.filter fun e => e.1 != p

/-- Observable events of a run, in program order. -/
inductive Event where
  | httpGet (r : Request)
  | warning (qcov_level : ℤ)
  | sleep (seconds : ℚ)
  | errorAbort
  | summaryPrint (csv_count csv_total sdf_count sdf_total : ℕ)
deriving DecidableEq

/-- Client state set up by `PlateVSClient.__init__` (the session and
headers carry no logic; the timeout is absorbed by the oracle). -/
structure PlateVSClient where
  timeout : ℤ
  output_dir : String
deriving DecidableEq

/-- `PlateVSClient.QCOV_LEVELS`: available qcov levels for the
similarity matrix. -/
def PlateVSClient.QCOV_LEVELS : List ℤ := [50, 70, 95, 100]

/-- Filename rendering of a threshold, as Python interpolates the float
into the f-string: for the configured grid thresholds (multiples of
1/10 in `[0,1)`) `str()` of the float literal is the one-decimal string
`"0.d"`, which this reproduces (the digit is `10 * t`). -/
def thresholdRepr (t : ℚ) : String := "0." ++ toString (t.num * 10 / t.den)

/-- `f"similarity_matrix_qcov{qcov_level}_threshold_{similarity_threshold}.csv"`. -/
def csvFilename (qcov_level : ℤ) (threshold : ℚ) : String :=
  "similarity_matrix_qcov" ++ toString qcov_level ++ "_threshold_"
    ++ thresholdRepr threshold ++ ".csv"

/-- `self.output_dir / filename` for a matrix CSV. -/
def csvPath (dir : String) (qcov_level : ℤ) (threshold : ℚ) : String :=
  dir ++ "/" ++ csvFilename qcov_level threshold

/-- `f"similarity_sdf_threshold_{similarity_threshold}.tar.gz"`. -/
def sdfFilename (threshold : ℚ) : String :=
  "similarity_sdf_threshold_" ++ thresholdRepr threshold ++ ".tar.gz"

/-- `self.output_dir / filename` for an SDF archive. -/
def sdfPath (dir : String) (threshold : ℚ) : String :=
  dir ++ "/" ++ sdfFilename threshold

/-- `PlateVSClient.download_similarity_matrix_csv`: warn (without
rejecting) when `qcov_level` is non-standard, GET the matrix endpoint,
and inside the `try`: `raise_for_status`, then write `response.content`
to the deterministically named file and return its path; the `except
requests.exceptions.RequestException` branch returns `None`. Returns
(result, filesystem after, events emitted). -/
def PlateVSClient.download_similarity_matrix_csv (c : PlateVSClient) (oracle : Oracle)
    (fs : FS) (similarity_threshold : ℚ) (qcov_level : ℤ) :
    Option String × FS × List Event :=
  let warnEv : List Event :=
    if qcov_level ∈ PlateVSClient.QCOV_LEVELS then [] else [.warning qcov_level]
  let req := Request.matrixCsv similarity_threshold qcov_level
  match oracle req with
  | .transportError => (none, fs, warnEv ++ [.httpGet req])
  | .response status content =>
    if fetchRaises status then
      (none, fs, warnEv ++ [.httpGet req])
    else
      (some (csvPath c.output_dir qcov_level similarity_threshold),
       fs.write (csvPath c.output_dir qcov_level similarity_threshold) content,
       warnEv ++ [.httpGet req])

/-- `PlateVSClient.download_similarity_sdf`: GET the SDF endpoint with
`allow_redirects=True` (the oracle already yields the final response),
`raise_for_status`, write `response.content` to the deterministically
named archive file and return its path; the `except` branch returns
`None`. -/
def PlateVSClient.download_similarity_sdf (c : PlateVSClient) (oracle : Oracle)
    (fs : FS) (similarity_threshold : ℚ) :
    Option String × FS × List Event :=
  let req := Request.sdfArchive similarity_threshold
  match oracle req with
  | .transportError => (none, fs, [.httpGet req])
  | .response status content =>
    if fetchRaises status then
      (none, fs, [.httpGet req])
    else
      (some (sdfPath c.output_dir similarity_threshold),
       fs.write (sdfPath c.output_dir similarity_threshold) content,
       [.httpGet req])

/-- Result of `check_service_status`: the Python dict with keys
`'main'` and `'api'`, always both present, each a `bool`. -/
structure ServiceStatus where
  main : Bool
  api : Bool
deriving DecidableEq

/-- `PlateVSClient.check_service_status`: GET the base URL and
`/api/health` in that order; for each, the entry is
`status_code == 200`, and a `RequestException` yields `False`. Total:
every exception is caught inside the per-endpoint `try`. -/
def PlateVSClient.check_service_status (_c : PlateVSClient) (oracle : Oracle) :
    ServiceStatus × List Event :=
  (⟨statusOf (oracle .mainPage), statusOf (oracle .apiHealth)⟩,
   [.httpGet .mainPage, .httpGet .apiHealth])

end PlateVS

namespace DownloadAll

open PlateVS

/-- `OUTPUT_DIR` of `download_all_data.main`. -/
def OUTPUT_DIR : String := "./platevs_full_dataset"

/-- `THRESHOLDS` of `download_all_data.main` (the Python float literals
`0.0, 0.1, 0.3, 0.5, 0.7, 0.9`, as exact rationals). -/
def THRESHOLDS : List ℚ := [0, mkRat 1 10, mkRat 3 10, mkRat 1 2, mkRat 7 10, mkRat 9 10]

/-- `QCOV_LEVELS` of `download_all_data.main`. -/
def QCOV_LEVELS : List ℤ := [50, 70, 95, 100]

/-- The client constructed by `main`
(`PlateVSClient(output_dir=OUTPUT_DIR)`, default timeout 30). -/
def runClient : PlateVSClient := ⟨30, OUTPUT_DIR⟩

/-- Mutable state threaded through the download loops: the success
counter of the current phase, the filesystem, and the trace so far. -/
structure LoopState where
  count : ℕ
  fs : FS
  events : List Event
deriving DecidableEq

/-- Body of the inner CSV loop: one
`client.download_similarity_matrix_csv(threshold, qcov)` call, counter
incremented iff the returned path is truthy, then `time.sleep(0.5)` (a half-second pause). -/
def csvStep (c : PlateVSClient) (oracle : Oracle) (st : LoopState)
    (qcov : ℤ) (threshold : ℚ) : LoopState :=
  let r := c.download_similarity_matrix_csv oracle st.fs threshold qcov
  { count := st.count + (if r.1.isSome then 1 else 0),
    fs := r.2.1,
    events := st.events ++ r.2.2 ++ [.sleep (mkRat 1 2)] }

/-- Phase 1 of `main`: `for qcov in QCOV_LEVELS: for threshold in
THRESHOLDS: ...` (coverage-major, threshold-minor). -/
def csvPhase (c : PlateVSClient) (oracle : Oracle)
    (qcovs : List ℤ) (ths : List ℚ) (st : LoopState) : LoopState :=
  qcovs.foldl (fun st q => ths.foldl (fun st t => csvStep c oracle st q t) st) st

/-- Body of the SDF loop: one `client.download_similarity_sdf(threshold)`
call, counter incremented iff the returned path is truthy, then
`time.sleep(1.0)`. -/
def sdfStep (c : PlateVSClient) (oracle : Oracle) (st : LoopState)
    (threshold : ℚ) : LoopState :=
  let r := c.download_similarity_sdf oracle st.fs threshold
  { count := st.count + (if r.1.isSome then 1 else 0),
    fs := r.2.1,
    events := st.events ++ r.2.2 ++ [.sleep 1] }

/-- Phase 2 of `main`: `for threshold in THRESHOLDS: ...`. -/
def sdfPhase (c : PlateVSClient) (oracle : Oracle)
    (ths : List ℚ) (st : LoopState) : LoopState :=
  ths.foldl (fun st t => sdfStep c oracle st t) st

/-- Result of one bulk run: full event trace, final filesystem, and the
printed summary `(csv_count, csv_total, sdf_count, sdf_total)` —
`none` when the run aborted before the loops. -/
structure RunResult where
  events : List Event
  fs : FS
  summary : Option (ℕ × ℕ × ℕ × ℕ)
deriving DecidableEq

/-- `download_all_data.main`: probe the service once; if
`not status.get('main')`, print the error and `return` before any task;
otherwise run the CSV phase over the full grid, then the SDF phase over
the thresholds, then print the summary
`csv_count/len(THRESHOLDS)*len(QCOV_LEVELS)` and
`sdf_count/len(THRESHOLDS)`. -/
def mainRun (oracle : Oracle) : RunResult :=
  let probe := runClient.check_service_status oracle
  if probe.1.main = false then
    { events := probe.2 ++ [.errorAbort], fs := [], summary := none }
  else
    let st1 := csvPhase runClient oracle QCOV_LEVELS THRESHOLDS ⟨0, [], probe.2⟩
    let st2 := sdfPhase runClient oracle THRESHOLDS ⟨0, st1.fs, st1.events⟩
    { events := st2.events ++
        [.summaryPrint st1.count (THRESHOLDS.length * QCOV_LEVELS.length)
          st2.count THRESHOLDS.length],
      fs := st2.fs,
      summary := some (st1.count, THRESHOLDS.length * QCOV_LEVELS.length,
        st2.count, THRESHOLDS.length) }

/-- The task grid as the spec declares it: one matrix request per
(coverage, threshold) combination, coverage-major, threshold-minor. -/
def specMatrixRequests (qcovs : List ℤ) (ths : List ℚ) : List Request :=
  qcovs.flatMap fun q => ths.map fun t => .matrixCsv t q

/-- The archive tasks as the spec declares them: one per threshold. -/
def specArchiveRequests (ths : List ℚ) : List Request :=
  ths.map fun t => .sdfArchive t

/-- The HTTP requests recorded in a trace, in order. -/
def requestsOf (evs : List Event) : List Request :=
  evs.filterMap fun e => match e with | .httpGet r => some r | _ => none

/-- Download-task requests (probes excluded). -/
def Request.isTask : Request → Bool
  | .matrixCsv _ _ => true
  | .sdfArchive _ => true
  | _ => false

/-- The download-task requests recorded in a trace, in order. -/
def taskRequestsOf (evs : List Event) : List Request :=
  (requestsOf evs).filter Request.isTask

/-- Whether the run's download of a given task yields a path
(non-failure result). -/
def taskSucceeds (c : PlateVSClient) (oracle : Oracle) : Request → Bool
  | .matrixCsv t q => (c.download_similarity_matrix_csv oracle [] t q).1.isSome
  | .sdfArchive t => (c.download_similarity_sdf oracle [] t).1.isSome
  | _ => false

/-- CSV successes of the full bulk run, as the count of grid tasks
whose download is a non-failure. -/
def gridCsvCount (oracle : Oracle) : ℕ :=
  (specMatrixRequests QCOV_LEVELS THRESHOLDS).countP (taskSucceeds runClient oracle)

/-- SDF successes of the full bulk run. -/
def gridSdfCount (oracle : Oracle) : ℕ :=
  (specArchiveRequests THRESHOLDS).countP (taskSucceeds runClient oracle)

/-- Events one CSV iteration emits (independent of the outcome and of
the filesystem): possible warning, the GET, the fixed pause. -/
def csvCellEvents (q : ℤ) (t : ℚ) : List Event :=
  (if q ∈ PlateVSClient.QCOV_LEVELS then [] else [.warning q])
    ++ [.httpGet (.matrixCsv t q), .sleep (mkRat 1 2)]

/-- Events of one full inner CSV loop at a fixed coverage level. -/
def csvRowEvents (q : ℤ) (ths : List ℚ) : List Event :=
  ths.flatMap fun t => csvCellEvents q t

/-- Events of the whole CSV phase. -/
def csvGridEvents (qcovs : List ℤ) (ths : List ℚ) : List Event :=
  qcovs.flatMap fun q => csvRowEvents q ths

/-- Events one SDF iteration emits: the GET and the fixed pause. -/
def sdfCellEvents (t : ℚ) : List Event :=
  [.httpGet (.sdfArchive t), .sleep 1]

/-- Events of the whole SDF phase. -/
def sdfAllEvents (ths : List ℚ) : List Event :=
  ths.flatMap fun t => sdfCellEvents t

lemma csv_download_result_fs (c : PlateVSClient) (oracle : Oracle) (fs : FS)
    (t : ℚ) (q : ℤ) :
    (c.download_similarity_matrix_csv oracle fs t q).1
      = (c.download_similarity_matrix_csv oracle [] t q).1 := by
  unfold PlateVSClient.download_similarity_matrix_csv
  cases h' : oracle (.matrixCsv t q) with
  | transportError => simp [h']
  | response s content => by_cases h : fetchRaises s <;> simp [h', h]

lemma csv_download_events (c : PlateVSClient) (oracle : Oracle) (fs : FS)
    (t : ℚ) (q : ℤ) :
    (c.download_similarity_matrix_csv oracle fs t q).2.2
      = (if q ∈ PlateVSClient.QCOV_LEVELS then [] else [.warning q])
          ++ [.httpGet (.matrixCsv t q)] := by
  unfold PlateVSClient.download_similarity_matrix_csv
  cases h' : oracle (.matrixCsv t q) with
  | transportError => simp [h']
  | response s content => by_cases h : fetchRaises s <;> simp [h', h]

lemma sdf_download_result_fs (c : PlateVSClient) (oracle : Oracle) (fs : FS)
    (t : ℚ) :
    (c.download_similarity_sdf oracle fs t).1
      = (c.download_similarity_sdf oracle [] t).1 := by
  unfold PlateVSClient.download_similarity_sdf
  cases h' : oracle (.sdfArchive t) with
  | transportError => simp [h']
  | response s content => by_cases h : fetchRaises s <;> simp [h', h]

lemma sdf_download_events (c : PlateVSClient) (oracle : Oracle) (fs : FS)
    (t : ℚ) :
    (c.download_similarity_sdf oracle fs t).2.2 = [.httpGet (.sdfArchive t)] := by
  unfold PlateVSClient.download_similarity_sdf
  cases h' : oracle (.sdfArchive t) with
  | transportError => simp [h']
  | response s content => by_cases h : fetchRaises s <;> simp [h', h]

lemma csvStep_count (c : PlateVSClient) (oracle : Oracle) (st : LoopState)
    (q : ℤ) (t : ℚ) :
    (csvStep c oracle st q t).count
      = st.count + (if taskSucceeds c oracle (.matrixCsv t q) then 1 else 0) := by
  simp [csvStep, taskSucceeds, csv_download_result_fs c oracle st.fs t q]

lemma csvStep_events (c : PlateVSClient) (oracle : Oracle) (st : LoopState)
    (q : ℤ) (t : ℚ) :
    (csvStep c oracle st q t).events = st.events ++ csvCellEvents q t := by
  simp [csvStep, csvCellEvents, csv_download_events]

lemma sdfStep_count (c : PlateVSClient) (oracle : Oracle) (st : LoopState)
    (t : ℚ) :
    (sdfStep c oracle st t).count
      = st.count + (if taskSucceeds c oracle (.sdfArchive t) then 1 else 0) := by
  simp [sdfStep, taskSucceeds, sdf_download_result_fs c oracle st.fs t]

lemma sdfStep_events (c : PlateVSClient) (oracle : Oracle) (st : LoopState)
    (t : ℚ) :
    (sdfStep c oracle st t).events = st.events ++ sdfCellEvents t := by
  simp [sdfStep, sdfCellEvents, sdf_download_events]

lemma csvRow_count (c : PlateVSClient) (oracle : Oracle) (q : ℤ) (ths : List ℚ) :
    ∀ st : LoopState,
      (ths.foldl (fun st t => csvStep c oracle st q t) st).count
        = st.count + (ths.map fun t => Request.matrixCsv t q).countP
            (taskSucceeds c oracle) := by
  induction ths with
  | nil => intro st; simp
  | cons t ths ih =>
    intro st
    simp only [List.foldl_cons, List.map_cons, List.countP_cons, ih, csvStep_count]
    rcases h : taskSucceeds c oracle (.matrixCsv t q) <;> simp [h] <;> ring

lemma csvRow_events (c : PlateVSClient) (oracle : Oracle) (q : ℤ) (ths : List ℚ) :
    ∀ st : LoopState,
      (ths.foldl (fun st t => csvStep c oracle st q t) st).events
        = st.events ++ csvRowEvents q ths := by
  induction ths with
  | nil => intro st; simp [csvRowEvents]
  | cons t ths ih =>
    intro st
    simp [List.foldl_cons, ih, csvStep_events, csvRowEvents]

lemma csvPhase_count (c : PlateVSClient) (oracle : Oracle)
    (qcovs : List ℤ) (ths : List ℚ) :
    ∀ st : LoopState,
      (csvPhase c oracle qcovs ths st).count
        = st.count + (specMatrixRequests qcovs ths).countP (taskSucceeds c oracle) := by
  induction qcovs with
  | nil => intro st; simp [csvPhase, specMatrixRequests]
  | cons q qcovs ih =>
    intro st
    simp only [csvPhase, List.foldl_cons, specMatrixRequests, List.flatMap_cons,
      List.countP_append]
    rw [show (List.foldl (fun st q => List.foldl (fun st t => csvStep c oracle st q t) st ths) (List.foldl (fun st t => csvStep c oracle st q t) st ths) qcovs) = csvPhase c oracle qcovs ths (List.foldl (fun st t => csvStep c oracle st q t) st ths) from rfl]
    rw [ih, csvRow_count]
    simp only [specMatrixRequests]
    ring

lemma csvPhase_events (c : PlateVSClient) (oracle : Oracle)
    (qcovs : List ℤ) (ths : List ℚ) :
    ∀ st : LoopState,
      (csvPhase c oracle qcovs ths st).events
        = st.events ++ csvGridEvents qcovs ths := by
  induction qcovs with
  | nil => intro st; simp [csvPhase, csvGridEvents]
  | cons q qcovs ih =>
    intro st
    simp only [csvPhase, List.foldl_cons, csvGridEvents, List.flatMap_cons]
    rw [show (List.foldl (fun st q => List.foldl (fun st t => csvStep c oracle st q t) st ths) (List.foldl (fun st t => csvStep c oracle st q t) st ths) qcovs) = csvPhase c oracle qcovs ths (List.foldl (fun st t => csvStep c oracle st q t) st ths) from rfl]
    rw [ih, csvRow_events]
    simp [csvGridEvents]

lemma sdfPhase_count (c : PlateVSClient) (oracle : Oracle) (ths : List ℚ) :
    ∀ st : LoopState,
      (sdfPhase c oracle ths st).count
        = st.count + (specArchiveRequests ths).countP (taskSucceeds c oracle) := by
  induction ths with
  | nil => intro st; simp [sdfPhase, specArchiveRequests]
  | cons t ths ih =>
    intro st
    simp only [sdfPhase, List.foldl_cons, specArchiveRequests, List.map_cons,
      List.countP_cons] at *
    rw [ih, sdfStep_count]
    rcases h : taskSucceeds c oracle (.sdfArchive t) <;> simp [h] <;> ring

lemma sdfPhase_events (c : PlateVSClient) (oracle : Oracle) (ths : List ℚ) :
    ∀ st : LoopState,
      (sdfPhase c oracle ths st).events = st.events ++ sdfAllEvents ths := by
  induction ths with
  | nil => intro st; simp [sdfPhase, sdfAllEvents]
  | cons t ths ih =>
    intro st
    simp only [sdfPhase, List.foldl_cons] at *
    rw [ih, sdfStep_events]
    simp [sdfAllEvents]

lemma mainRun_summary (oracle : Oracle) (h : statusOf (oracle .mainPage) = true) :
    (mainRun oracle).summary
      = some (gridCsvCount oracle, THRESHOLDS.length * QCOV_LEVELS.length,
          gridSdfCount oracle, THRESHOLDS.length) := by
  simp [mainRun, PlateVSClient.check_service_status, h, csvPhase_count,
    sdfPhase_count, gridCsvCount, gridSdfCount]

lemma mainRun_events (oracle : Oracle) (h : statusOf (oracle .mainPage) = true) :
    (mainRun oracle).events
      = [.httpGet .mainPage, .httpGet .apiHealth]
          ++ csvGridEvents QCOV_LEVELS THRESHOLDS ++ sdfAllEvents THRESHOLDS
          ++ [.summaryPrint (gridCsvCount oracle)
                (THRESHOLDS.length * QCOV_LEVELS.length)
                (gridSdfCount oracle) THRESHOLDS.length] := by
  simp [mainRun, PlateVSClient.check_service_status, h, csvPhase_count,
    sdfPhase_count, csvPhase_events, sdfPhase_events, gridCsvCount, gridSdfCount]

lemma mainRun_aborted (oracle : Oracle) (h : statusOf (oracle .mainPage) = false) :
    mainRun oracle
      = { events := [.httpGet .mainPage, .httpGet .apiHealth, .errorAbort],
          fs := [], summary := none } := by
  simp [mainRun, PlateVSClient.check_service_status, h]

lemma taskRequestsOf_run (oracle : Oracle) (h : statusOf (oracle .mainPage) = true) :
    taskRequestsOf (mainRun oracle).events
      = specMatrixRequests QCOV_LEVELS THRESHOLDS ++ specArchiveRequests THRESHOLDS := by
  rw [mainRun_events oracle h]
  simp only [taskRequestsOf, requestsOf, List.filterMap_append, List.filter_append]
  rw [show (List.filter Request.isTask (List.filterMap (fun e => match e with | .httpGet r => some r | _ => none) (csvGridEvents QCOV_LEVELS THRESHOLDS)) = specMatrixRequests QCOV_LEVELS THRESHOLDS) from by decide]
  rw [show (List.filter Request.isTask (List.filterMap (fun e => match e with | .httpGet r => some r | _ => none) (sdfAllEvents THRESHOLDS)) = specArchiveRequests THRESHOLDS) from by decide]
  simp
  exact ⟨rfl, rfl⟩

lemma requestsOf_run (oracle : Oracle) (h : statusOf (oracle .mainPage) = true) :
    requestsOf (mainRun oracle).events
      = Request.mainPage :: Request.apiHealth ::
          (specMatrixRequests QCOV_LEVELS THRESHOLDS
            ++ specArchiveRequests THRESHOLDS) := by
  rw [mainRun_events oracle h]
  simp only [requestsOf, List.filterMap_append]
  rw [show (List.filterMap (fun e => match e with | .httpGet r => some r | _ => none) (csvGridEvents QCOV_LEVELS THRESHOLDS) = specMatrixRequests QCOV_LEVELS THRESHOLDS) from by decide]
  rw [show (List.filterMap (fun e => match e with | .httpGet r => some r | _ => none) (sdfAllEvents THRESHOLDS) = specArchiveRequests THRESHOLDS) from by decide]
  simp

lemma specMatrixRequests_length (qcovs : List ℤ) (ths : List ℚ) :
    (specMatrixRequests qcovs ths).length = qcovs.length * ths.length := by
  induction qcovs with
  | nil => simp [specMatrixRequests]
  | cons q qcovs ih =>
    simp only [specMatrixRequests, List.flatMap_cons, List.length_append,
      List.length_map, List.length_cons] at *
    rw [ih]
    ring

end DownloadAll

namespace PlateVS

lemma find_filter_ne (fs : FS) (p p' : String) (h : p' ≠ p) :
    ((fs.filter fun e => e.1 != p).find? fun e => e.1 == p')
      = fs.find? fun e => e.1 == p' := by
  induction fs with
  | nil => simp
  | cons e fs ih =>
    by_cases h1 : e.1 = p
    · have hne : (p == p') = false := by
        simp only [beq_eq_false_iff_ne]
        exact fun hc => h hc.symm
      simp [List.filter_cons, h1, List.find?_cons, hne, ih]
    · by_cases h2 : e.1 = p'
      · simp [List.filter_cons, bne_iff_ne, h1, h, List.find?_cons, h2]
      · simp [List.filter_cons, bne_iff_ne, h1, h, List.find?_cons, h2, ih]

lemma FS.read_write_self (fs : FS) (p : String) (c : Bytes) :
    (fs.write p c).read p = some c := by
  simp [FS.read, FS.write, List.find?_cons]

lemma FS.read_write_ne (fs : FS) (p p' : String) (c : Bytes) (h : p' ≠ p) :
    (fs.write p c).read p' = fs.read p' := by
  have hne : (p == p') = false := by
    simp only [beq_eq_false_iff_ne]
    exact fun hc => h hc.symm
  simp [FS.read, FS.write, List.find?_cons, hne, find_filter_ne fs p p' h]

end PlateVS

namespace DownloadAll

open PlateVS

/-- C1: the bulk run enumerates exactly one matrix-CSV task per
(coverage, threshold) pair, in coverage-major, threshold-minor order,
for a total of |coverage_levels| × |thresholds| matrix tasks, followed
by exactly one archive task per threshold after all matrix tasks. -/
theorem C1_task_grid (oracle : Oracle)
    (h : statusOf (oracle .mainPage) = true) :
    taskRequestsOf (mainRun oracle).events
        = specMatrixRequests QCOV_LEVELS THRESHOLDS
            ++ specArchiveRequests THRESHOLDS
      ∧ (specMatrixRequests QCOV_LEVELS THRESHOLDS).length
          = QCOV_LEVELS.length * THRESHOLDS.length
      ∧ (∀ q ∈ QCOV_LEVELS, ∀ t ∈ THRESHOLDS,
          (taskRequestsOf (mainRun oracle).events).count (Request.matrixCsv t q) = 1)
      ∧ (∀ t ∈ THRESHOLDS,
          (taskRequestsOf (mainRun oracle).events).count (Request.sdfArchive t) = 1) := by
  have e := taskRequestsOf_run oracle h
  refine ⟨e, by decide, ?_, ?_⟩
  · rw [e]; decide
  · rw [e]; decide

theorem C1_task_grid_witness :
    statusOf ((fun _ => HttpResult.response 200 []) Request.mainPage) = true
      ∧ taskRequestsOf (mainRun fun _ => HttpResult.response 200 []).events
          = specMatrixRequests QCOV_LEVELS THRESHOLDS
              ++ specArchiveRequests THRESHOLDS :=
  ⟨by decide, (C1_task_grid (fun _ => HttpResult.response 200 []) (by decide)).1⟩

/-- C2: per-task failures are local — for every oracle (in particular
one failing every task) the run attempts the whole grid, attempts no
task twice, completes, and prints the summary, with failed tasks merely
tallied as not-succeeded (the counts count exactly the non-failures). -/
theorem C2_failures_local (oracle : Oracle)
    (h : statusOf (oracle .mainPage) = true) :
    (mainRun oracle).summary
        = some (gridCsvCount oracle, THRESHOLDS.length * QCOV_LEVELS.length,
            gridSdfCount oracle, THRESHOLDS.length)
      ∧ taskRequestsOf (mainRun oracle).events
          = specMatrixRequests QCOV_LEVELS THRESHOLDS
              ++ specArchiveRequests THRESHOLDS
      ∧ (∀ r : Request, (taskRequestsOf (mainRun oracle).events).count r ≤ 1) := by
  refine ⟨mainRun_summary oracle h, taskRequestsOf_run oracle h, fun r => ?_⟩
  rw [taskRequestsOf_run oracle h]
  exact List.nodup_iff_count_le_one.mp (by decide) r

theorem C2_failures_local_witness :
    statusOf ((fun r => match r with
        | Request.mainPage => HttpResult.response 200 []
        | _ => HttpResult.transportError) Request.mainPage) = true
      ∧ (mainRun fun r => match r with
          | Request.mainPage => HttpResult.response 200 []
          | _ => HttpResult.transportError).summary
          = some (0, 24, 0, 6) := by
  refine ⟨by decide, ?_⟩
  rw [(C2_failures_local (fun r => match r with
    | Request.mainPage => HttpResult.response 200 []
    | _ => HttpResult.transportError) (by decide)).1]
  decide

/-- C3: if the reachability probe reports the main site unreachable,
the run aborts: zero tasks are attempted and the summary is never
printed; and in every run the probe executes exactly once, its two GETs
coming before anything else in the trace. -/
theorem C3_abort_on_unreachable (oracle : Oracle) :
    (statusOf (oracle .mainPage) = false →
        mainRun oracle
            = { events := [.httpGet .mainPage, .httpGet .apiHealth, .errorAbort],
                fs := [], summary := none }
          ∧ taskRequestsOf (mainRun oracle).events = [])
      ∧ (requestsOf (mainRun oracle).events).take 2 = [.mainPage, .apiHealth]
      ∧ (requestsOf (mainRun oracle).events).count Request.mainPage = 1
      ∧ (requestsOf (mainRun oracle).events).count Request.apiHealth = 1 := by
  refine ⟨fun h => ⟨mainRun_aborted oracle h, by rw [mainRun_aborted oracle h]; decide⟩, ?_⟩
  cases hb : statusOf (oracle .mainPage) with
  | false =>
    rw [mainRun_aborted oracle hb]
    refine ⟨by decide, by decide, by decide⟩
  | true =>
    rw [requestsOf_run oracle hb]
    refine ⟨rfl, ?_, ?_⟩
    · simp only [List.count_cons, List.count_append]
      rw [show (specMatrixRequests QCOV_LEVELS THRESHOLDS).count Request.mainPage = 0 from by decide,
        show (specArchiveRequests THRESHOLDS).count Request.mainPage = 0 from by decide]
      decide
    · simp only [List.count_cons, List.count_append]
      rw [show (specMatrixRequests QCOV_LEVELS THRESHOLDS).count Request.apiHealth = 0 from by decide,
        show (specArchiveRequests THRESHOLDS).count Request.apiHealth = 0 from by decide]
      decide

theorem C3_abort_on_unreachable_witness :
    statusOf ((fun _ => HttpResult.transportError) Request.mainPage) = false
      ∧ taskRequestsOf (mainRun fun _ => HttpResult.transportError).events = [] :=
  ⟨by decide,
    ((C3_abort_on_unreachable (fun _ => HttpResult.transportError)).1 (by decide)).2⟩

/-- C4: per category, succeeded never exceeds attempted — at run end
the summary counts equal exactly the number of tasks of the category
whose download result was a non-failure, and throughout the run the
intermediate counter after any prefix of the loop is at most the number
of tasks attempted so far. -/
theorem C4_count_invariant (oracle : Oracle)
    (h : statusOf (oracle .mainPage) = true) :
    (mainRun oracle).summary
        = some (gridCsvCount oracle, THRESHOLDS.length * QCOV_LEVELS.length,
            gridSdfCount oracle, THRESHOLDS.length)
      ∧ gridCsvCount oracle ≤ QCOV_LEVELS.length * THRESHOLDS.length
      ∧ gridSdfCount oracle ≤ THRESHOLDS.length
      ∧ (∀ qPre qSuf, QCOV_LEVELS = qPre ++ qSuf →
          (csvPhase runClient oracle qPre THRESHOLDS
              ⟨0, [], (runClient.check_service_status oracle).2⟩).count
            ≤ qPre.length * THRESHOLDS.length)
      ∧ (∀ tPre tSuf, THRESHOLDS = tPre ++ tSuf →
          (sdfPhase runClient oracle tPre
              ⟨0,
               (csvPhase runClient oracle QCOV_LEVELS THRESHOLDS
                 ⟨0, [], (runClient.check_service_status oracle).2⟩).fs,
               (csvPhase runClient oracle QCOV_LEVELS THRESHOLDS
                 ⟨0, [], (runClient.check_service_status oracle).2⟩).events⟩).count
            ≤ tPre.length) := by
  refine ⟨mainRun_summary oracle h, ?_, ?_, ?_, ?_⟩
  · calc gridCsvCount oracle
        ≤ (specMatrixRequests QCOV_LEVELS THRESHOLDS).length :=
          List.countP_le_length _
      _ = QCOV_LEVELS.length * THRESHOLDS.length :=
          specMatrixRequests_length _ _
  · calc gridSdfCount oracle
        ≤ (specArchiveRequests THRESHOLDS).length := List.countP_le_length _
      _ = THRESHOLDS.length := by simp [specArchiveRequests]
  · intro qPre qSuf _
    rw [csvPhase_count]
    calc 0 + (specMatrixRequests qPre THRESHOLDS).countP (taskSucceeds runClient oracle)
        ≤ (specMatrixRequests qPre THRESHOLDS).length := by
          simpa using List.countP_le_length _
      _ = qPre.length * THRESHOLDS.length := specMatrixRequests_length _ _
  · intro tPre tSuf _
    rw [sdfPhase_count]
    calc 0 + (specArchiveRequests tPre).countP (taskSucceeds runClient oracle)
        ≤ (specArchiveRequests tPre).length := by
          simpa using List.countP_le_length _
      _ = tPre.length := by simp [specArchiveRequests]

theorem C4_count_invariant_witness :
    statusOf ((fun _ => HttpResult.response 200 [1]) Request.mainPage) = true
      ∧ gridCsvCount (fun _ => HttpResult.response 200 [1])
          ≤ QCOV_LEVELS.length * THRESHOLDS.length :=
  ⟨by decide, (C4_count_invariant (fun _ => HttpResult.response 200 [1]) (by decide)).2.1⟩

end DownloadAll

namespace DownloadAll

open PlateVS

/-- C5: the fetch primitive signals failure uniformly for any non-2xx
final status or transport error, the download operations catch that
signal and return `none`, and hence a download returns a written path
exactly when the final response (after redirects) is 2xx. -/
theorem C5_path_iff_2xx (c : PlateVSClient) (oracle : Oracle) (fs : FS)
    (t : ℚ) (q : ℤ) :
    ((c.download_similarity_matrix_csv oracle fs t q).1.isSome = true
        ↔ ∃ s content, oracle (.matrixCsv t q) = .response s content
            ∧ 200 ≤ s ∧ s < 300)
      ∧ ((c.download_similarity_sdf oracle fs t).1.isSome = true
        ↔ ∃ s content, oracle (.sdfArchive t) = .response s content
            ∧ 200 ≤ s ∧ s < 300)
      ∧ (∀ s : ℕ, fetchRaises s = true ↔ ¬(200 ≤ s ∧ s < 300)) := by
  refine ⟨?_, ?_, fun s => by simp [fetchRaises]; omega⟩
  · unfold PlateVSClient.download_similarity_matrix_csv
    cases h' : oracle (.matrixCsv t q) with
    | transportError => simp [h']
    | response s content =>
      cases hr : fetchRaises s with
      | true =>
        have hn : ¬(200 ≤ s ∧ s < 300) := of_decide_eq_true hr
        simp [h', hr, hn]
      | false =>
        have hp : 200 ≤ s ∧ s < 300 := not_not.mp (of_decide_eq_false hr)
        simp [h', hr, hp]
  · unfold PlateVSClient.download_similarity_sdf
    cases h' : oracle (.sdfArchive t) with
    | transportError => simp [h']
    | response s content =>
      cases hr : fetchRaises s with
      | true =>
        have hn : ¬(200 ≤ s ∧ s < 300) := of_decide_eq_true hr
        simp [h', hr, hn]
      | false =>
        have hp : 200 ≤ s ∧ s < 300 := not_not.mp (of_decide_eq_false hr)
        simp [h', hr, hp]

/-- C6 counterexample to the claim as stated: a fetch succeeding with
an empty body (HTTP 200, zero-length content) yields a success result
and a success tally, yet the written file is empty — so a successful
fetch does not always write a non-empty file. -/
theorem C6_counterexample :
    (runClient.download_similarity_matrix_csv (fun _ => .response 200 []) []
        (mkRat 9 10) 100).1.isSome = true
      ∧ taskSucceeds runClient (fun _ => .response 200 [])
          (.matrixCsv (mkRat 9 10) 100) = true
      ∧ FS.read (runClient.download_similarity_matrix_csv (fun _ => .response 200 []) []
            (mkRat 9 10) 100).2.1 (csvPath OUTPUT_DIR 100 (mkRat 9 10)) = some []
      ∧ ([] : Bytes).length = 0 := by
  decide

/-- C6 (amended): a task whose fetch succeeds writes a file holding
exactly the response body to the configured output directory (so the
file is non-empty whenever the body is), and the task is counted as
succeeded in the summary. -/
theorem C6_success_written_and_counted (oracle : Oracle) (fs : FS) (t : ℚ)
    (q : ℤ) (s : ℕ) (content : Bytes)
    (hresp : oracle (.matrixCsv t q) = .response s content)
    (hok : fetchRaises s = false) :
    (runClient.download_similarity_matrix_csv oracle fs t q).1
        = some (csvPath OUTPUT_DIR q t)
      ∧ FS.read (runClient.download_similarity_matrix_csv oracle fs t q).2.1
          (csvPath OUTPUT_DIR q t) = some content
      ∧ (content ≠ [] →
          FS.read (runClient.download_similarity_matrix_csv oracle fs t q).2.1
            (csvPath OUTPUT_DIR q t) ≠ some [])
      ∧ taskSucceeds runClient oracle (.matrixCsv t q) = true
      ∧ (Request.matrixCsv t q ∈ specMatrixRequests QCOV_LEVELS THRESHOLDS →
          statusOf (oracle .mainPage) = true →
          ∃ n m, (mainRun oracle).summary
              = some (n, THRESHOLDS.length * QCOV_LEVELS.length,
                  m, THRESHOLDS.length)
            ∧ 0 < n) := by
  have hd : runClient.download_similarity_matrix_csv oracle fs t q
      = (some (csvPath OUTPUT_DIR q t),
         fs.write (csvPath OUTPUT_DIR q t) content,
         (if q ∈ PlateVSClient.QCOV_LEVELS then [] else [Event.warning q])
           ++ [Event.httpGet (Request.matrixCsv t q)]) := by
    unfold PlateVSClient.download_similarity_matrix_csv
    simp [hresp, hok, runClient]
  have hsucc : taskSucceeds runClient oracle (.matrixCsv t q) = true := by
    simp [taskSucceeds, PlateVSClient.download_similarity_matrix_csv, hresp, hok]
  refine ⟨by rw [hd], ?_, ?_, hsucc, ?_⟩
  · rw [hd]
    exact FS.read_write_self fs _ content
  · intro hne
    rw [hd, FS.read_write_self]
    simp [hne]
  · intro hmem hmain
    refine ⟨gridCsvCount oracle, gridSdfCount oracle, mainRun_summary oracle hmain, ?_⟩
    have h0 : gridCsvCount oracle ≠ 0 := by
      unfold gridCsvCount
      intro hz
      exact absurd hsucc (by simpa using List.countP_eq_zero.mp hz _ hmem)
    exact Nat.pos_of_ne_zero h0

theorem C6_success_written_and_counted_witness :
    ((fun _ => HttpResult.response 200 [7]) (Request.matrixCsv (mkRat 9 10) 100)
        = HttpResult.response 200 [7])
      ∧ fetchRaises 200 = false
      ∧ FS.read (runClient.download_similarity_matrix_csv
            (fun _ => HttpResult.response 200 [7]) [] (mkRat 9 10) 100).2.1
          (csvPath OUTPUT_DIR 100 (mkRat 9 10)) = some [7] :=
  ⟨rfl, by decide,
    (C6_success_written_and_counted (fun _ => HttpResult.response 200 [7]) []
      (mkRat 9 10) 100 200 [7] rfl (by decide)).2.1⟩

end DownloadAll

namespace DownloadAll

open PlateVS

/-- C7: a successful task produces exactly one file, named as a
function of its parameters only, under the configured output
directory; a rerun at the same parameters overwrites whatever was
already at that path (the write replaces any prior contents and
touches no other path). -/
theorem C7_deterministic_name_overwrite (oracle : Oracle) (fs : FS) (t : ℚ)
    (q : ℤ) (s : ℕ) (content : Bytes) :
    (oracle (.matrixCsv t q) = .response s content → fetchRaises s = false →
        (runClient.download_similarity_matrix_csv oracle fs t q).1
            = some (csvPath OUTPUT_DIR q t)
          ∧ csvPath OUTPUT_DIR q t = OUTPUT_DIR ++ "/" ++ csvFilename q t
          ∧ FS.read (runClient.download_similarity_matrix_csv oracle fs t q).2.1
              (csvPath OUTPUT_DIR q t) = some content
          ∧ (∀ p, p ≠ csvPath OUTPUT_DIR q t →
              FS.read (runClient.download_similarity_matrix_csv oracle fs t q).2.1 p
                = FS.read fs p))
      ∧ (oracle (.sdfArchive t) = .response s content → fetchRaises s = false →
        (runClient.download_similarity_sdf oracle fs t).1
            = some (sdfPath OUTPUT_DIR t)
          ∧ sdfPath OUTPUT_DIR t = OUTPUT_DIR ++ "/" ++ sdfFilename t
          ∧ FS.read (runClient.download_similarity_sdf oracle fs t).2.1
              (sdfPath OUTPUT_DIR t) = some content
          ∧ (∀ p, p ≠ sdfPath OUTPUT_DIR t →
              FS.read (runClient.download_similarity_sdf oracle fs t).2.1 p
                = FS.read fs p)) := by
  constructor
  · intro hresp hok
    have hd : runClient.download_similarity_matrix_csv oracle fs t q
        = (some (csvPath OUTPUT_DIR q t),
           fs.write (csvPath OUTPUT_DIR q t) content,
           (if q ∈ PlateVSClient.QCOV_LEVELS then [] else [Event.warning q])
             ++ [Event.httpGet (Request.matrixCsv t q)]) := by
      unfold PlateVSClient.download_similarity_matrix_csv
      simp [hresp, hok, runClient]
    refine ⟨by rw [hd], rfl, ?_, ?_⟩
    · rw [hd]
      exact FS.read_write_self fs _ content
    · intro p hp
      rw [hd]
      exact FS.read_write_ne fs _ p content hp
  · intro hresp hok
    have hd : runClient.download_similarity_sdf oracle fs t
        = (some (sdfPath OUTPUT_DIR t),
           fs.write (sdfPath OUTPUT_DIR t) content,
           [Event.httpGet (Request.sdfArchive t)]) := by
      unfold PlateVSClient.download_similarity_sdf
      simp [hresp, hok, runClient]
    refine ⟨by rw [hd], rfl, ?_, ?_⟩
    · rw [hd]
      exact FS.read_write_self fs _ content
    · intro p hp
      rw [hd]
      exact FS.read_write_ne fs _ p content hp

theorem C7_deterministic_name_overwrite_witness :
    ((fun _ => HttpResult.response 200 [9]) (Request.matrixCsv (mkRat 9 10) 100)
        = HttpResult.response 200 [9])
      ∧ fetchRaises 200 = false
      ∧ FS.read (runClient.download_similarity_matrix_csv
            (fun _ => HttpResult.response 200 [9])
            [(csvPath OUTPUT_DIR 100 (mkRat 9 10), [1, 2, 3])]
            (mkRat 9 10) 100).2.1
          (csvPath OUTPUT_DIR 100 (mkRat 9 10)) = some [9] :=
  ⟨rfl, by decide,
    ((C7_deterministic_name_overwrite (fun _ => HttpResult.response 200 [9])
        [(csvPath OUTPUT_DIR 100 (mkRat 9 10), [1, 2, 3])]
        (mkRat 9 10) 100 200 [9]).1 rfl (by decide)).2.2.1⟩

/-- C8: the trace of a completed run is exactly the two probe GETs,
then the matrix tasks each immediately followed by a fixed half-second
pause, then the archive tasks each immediately followed by a fixed
one-second pause (strictly longer), then the summary — so every pause
is one of the two static constants and no other throttling exists. -/
theorem C8_static_pacing (oracle : Oracle)
    (h : statusOf (oracle .mainPage) = true) :
    (mainRun oracle).events
        = [.httpGet .mainPage, .httpGet .apiHealth]
            ++ (QCOV_LEVELS.flatMap fun q => THRESHOLDS.flatMap fun t =>
                  [.httpGet (.matrixCsv t q), .sleep (mkRat 1 2)])
            ++ (THRESHOLDS.flatMap fun t =>
                  [.httpGet (.sdfArchive t), .sleep 1])
            ++ [.summaryPrint (gridCsvCount oracle)
                  (THRESHOLDS.length * QCOV_LEVELS.length)
                  (gridSdfCount oracle) THRESHOLDS.length]
      ∧ (mkRat 1 2 : ℚ) < 1 := by
  refine ⟨?_, by decide⟩
  rw [mainRun_events oracle h]
  rw [show csvGridEvents QCOV_LEVELS THRESHOLDS
      = (QCOV_LEVELS.flatMap fun q => THRESHOLDS.flatMap fun t =>
          [Event.httpGet (.matrixCsv t q), Event.sleep (mkRat 1 2)]) from by decide]
  rw [show sdfAllEvents THRESHOLDS
      = (THRESHOLDS.flatMap fun t =>
          [Event.httpGet (.sdfArchive t), Event.sleep 1]) from by decide]

theorem C8_static_pacing_witness :
    statusOf ((fun _ => HttpResult.transportError) Request.apiHealth) = false
      ∧ statusOf ((fun r => match r with
          | Request.mainPage => HttpResult.response 200 []
          | _ => HttpResult.transportError) Request.mainPage) = true
      ∧ (mkRat 1 2 : ℚ) < 1 :=
  ⟨by decide, by decide,
    (C8_static_pacing (fun r => match r with
      | Request.mainPage => HttpResult.response 200 []
      | _ => HttpResult.transportError) (by decide)).2⟩

/-- C9: a non-standard `qcov_level` is not rejected:
`download_similarity_matrix_csv` emits a warning, still issues the HTTP
request, and on a successful response still returns the written path —
membership in the standard levels is not an enforced precondition. -/
theorem C9_nonstandard_qcov_not_rejected (oracle : Oracle) (fs : FS) (t : ℚ)
    (q : ℤ) (h : q ∉ PlateVSClient.QCOV_LEVELS) :
    (runClient.download_similarity_matrix_csv oracle fs t q).2.2
        = [.warning q, .httpGet (.matrixCsv t q)]
      ∧ (∀ s content, oracle (.matrixCsv t q) = .response s content →
          fetchRaises s = false →
          (runClient.download_similarity_matrix_csv oracle fs t q).1
            = some (csvPath OUTPUT_DIR q t)) := by
  constructor
  · rw [csv_download_events]
    simp [h]
  · intro s content hresp hok
    unfold PlateVSClient.download_similarity_matrix_csv
    simp [hresp, hok, runClient]

theorem C9_nonstandard_qcov_not_rejected_witness :
    (42 : ℤ) ∉ PlateVSClient.QCOV_LEVELS
      ∧ (runClient.download_similarity_matrix_csv
          (fun _ => HttpResult.response 200 [7]) [] (mkRat 9 10) 42).1
          = some (csvPath OUTPUT_DIR 42 (mkRat 9 10)) :=
  ⟨by decide,
    (C9_nonstandard_qcov_not_rejected (fun _ => HttpResult.response 200 [7]) []
      (mkRat 9 10) 42 (by decide)).2 200 [7] rfl (by decide)⟩

/-- C10: `check_service_status` is total — it returns booleans for both
probes (a transport error becoming `False`) and propagates no
exception — and the run's abort decision reads only the `'main'` entry:
whenever the main probe is 200 the run attempts every task, regardless
of the `'api'` probe. -/
theorem C10_status_total_main_only (oracle : Oracle) :
    runClient.check_service_status oracle
        = (⟨statusOf (oracle .mainPage), statusOf (oracle .apiHealth)⟩,
           [.httpGet .mainPage, .httpGet .apiHealth])
      ∧ statusOf HttpResult.transportError = false
      ∧ (statusOf (oracle .mainPage) = true →
          ((mainRun oracle).summary).isSome = true
            ∧ taskRequestsOf (mainRun oracle).events
                = specMatrixRequests QCOV_LEVELS THRESHOLDS
                    ++ specArchiveRequests THRESHOLDS) := by
  refine ⟨rfl, rfl, fun h => ⟨?_, taskRequestsOf_run oracle h⟩⟩
  rw [mainRun_summary oracle h]
  rfl

theorem C10_status_total_main_only_witness :
    ((runClient.check_service_status (fun r => match r with
        | Request.mainPage => HttpResult.response 200 []
        | _ => HttpResult.transportError)).1.api = false)
      ∧ statusOf ((fun r => match r with
          | Request.mainPage => HttpResult.response 200 []
          | _ => HttpResult.transportError) Request.mainPage) = true
      ∧ ((mainRun (fun r => match r with
          | Request.mainPage => HttpResult.response 200 []
          | _ => HttpResult.transportError)).summary).isSome = true :=
  ⟨by decide, by decide,
    ((C10_status_total_main_only (fun r => match r with
      | Request.mainPage => HttpResult.response 200 []
      | _ => HttpResult.transportError)).2.2 (by decide)).1⟩

end DownloadAll
